import Mathlib

/-!
Verification of the EpiVirus charting/statistics layer.

The definitions below are shallow embeddings of the JavaScript source in
src/client/src/components (ComprehensiveCharts.jsx, AdvancedCharts.jsx,
AnimationTab.jsx) and of the OverviewTab component.  Counts are modelled as
natural numbers and JavaScript floating-point arithmetic on ratios as exact
rational arithmetic; percentage display scaling (the ×100 and toFixed
formatting applied right before rendering) is stated in doc comments where a
definition drops it.  Optional series accessed with the JavaScript pattern
h.X?.[i] || 0 are modelled as Option lists read through a defaulted accessor.
The simulation engine itself is not part of the source tree (only the client
is), so the parts of the data model that the engine produces (per-node
DiseaseState assignment, the day-snapshot run, and the InfectionEdge lineage
feeding R-effective) are modelled from the specification and marked as such.
-/

namespace EpiVirus

/-- Time-series history object returned by the backend and consumed by every
chart component: per-day Susceptible, Exposed, Infectious, Recovered and
Deceased counts plus the day axis.  E and D are optional because the
components guard them with the JavaScript pattern history.E?.[i] || 0. -/
structure History where
  S : List ℕ
  E : Option (List ℕ)
  I : List ℕ
  R : List ℕ
  D : Option (List ℕ)
  time : List ℕ
deriving DecidableEq

/-- Reads history.E?.[i] || 0 : the Exposed count at day i, defaulting to 0
when the E series is absent or has no entry at i. -/
def eAt (h : History) (i : ℕ) : ℕ :=
  match h.E with
  | none => 0
  | some l => l.getD i 0

/-- Reads history.D?.[i] || 0 : the Deceased count at day i, defaulting to 0
when the D series is absent or has no entry at i. -/
def dAt (h : History) (i : ℕ) : ℕ :=
  match h.D with
  | none => 0
  | some l => l.getD i 0

/-- SimulationSummary (ComprehensiveCharts.jsx line 269): index of the last
recorded day, history.S.length - 1. -/
def lastDay (h : History) : ℕ := h.S.length - 1

/-- SimulationSummary (ComprehensiveCharts.jsx line 270): Math.max over the
Infectious series.  Embedded for non-empty series of naturals, where folding
max from 0 agrees with Math.max over the elements. -/
def peakInfections (I : List ℕ) : ℕ := I.foldl max 0

/-- SimulationSummary (ComprehensiveCharts.jsx line 271):
history.I.indexOf(peakInfections), the first index attaining the maximum. -/
def peakDay (I : List ℕ) : ℕ := I.indexOf (peakInfections I)

/-- SimulationSummary (ComprehensiveCharts.jsx line 272): final Recovered
count history.R[lastDay]. -/
def totalRecovered (h : History) : ℕ := h.R.getD (lastDay h) 0

/-- SimulationSummary (ComprehensiveCharts.jsx line 273): final Deceased
count history.D?.[lastDay] || 0. -/
def totalDeaths (h : History) : ℕ := dAt h (lastDay h)

/-- SimulationSummary (ComprehensiveCharts.jsx line 274): the population
total the summary derives from day-0 counts, history.S[0] + history.I[0] +
history.R[0].  Day-0 Exposed and Deceased are not included. -/
def totalPopulation (h : History) : ℕ :=
  h.S.getD 0 0 + h.I.getD 0 0 + h.R.getD 0 0

/-- SimulationSummary (ComprehensiveCharts.jsx line 275): the reported attack
rate (totalRecovered + totalDeaths) / totalPopulation, as a fraction; the
component multiplies by 100 and rounds to one decimal for display. -/
def attackRate (h : History) : ℚ :=
  ((totalRecovered h + totalDeaths h : ℕ) : ℚ) / (totalPopulation h : ℚ)

/-- SimulationSummary (ComprehensiveCharts.jsx lines 276-278): the reported
case-fatality rate, totalDeaths / (totalRecovered + totalDeaths) when both
totalDeaths and the denominator are positive, and 0 otherwise; the component
multiplies by 100 and rounds to two decimals for display. -/
def caseFatalityRate (h : History) : ℚ :=
  if 0 < totalDeaths h ∧ 0 < totalRecovered h + totalDeaths h then
    ((totalDeaths h : ℕ) : ℚ) / ((totalRecovered h + totalDeaths h : ℕ) : ℚ)
  else 0

/-- AttackRateChart (ComprehensiveCharts.jsx lines 916-923): per-day attack
rate series ((initialPop - s) / initialPop) * 100 with initialPop =
history.S[0], mapped over the Susceptible series. -/
def attackRateSeries (h : History) : List ℚ :=
  h.S.map (fun (s : ℕ) => ((h.S.getD 0 0 : ℚ) - (s : ℚ)) / (h.S.getD 0 0 : ℚ) * 100)

/-- CumulativeStatsChart (ComprehensiveCharts.jsx lines 883-894): per-day
cumulative ever-infected count history.S[0] - history.S[i], the total who
left the susceptible pool; JavaScript subtraction can go negative so the
values live in ℤ. -/
def totalInfectedSeries (h : History) : List ℤ :=
  h.S.map (fun (s : ℕ) => (h.S.getD 0 0 : ℤ) - (s : ℤ))

/-- EpidemicCurveChart and DailyNewInfectionsChart calculateMovingAvg
(ComprehensiveCharts.jsx lines 121-129 and 664-672): for each index i the
mean of data.slice(max(0, i - window + 1), i + 1), dividing by the slice
length.  The source gives window the default value 7 at every call site.
Natural subtraction i + 1 - window truncates at 0 exactly like
Math.max(0, i - window + 1). -/
def calculateMovingAvg (data : List ℚ) (window : ℕ) : List ℚ :=
  data.mapIdx (fun i _ =>
    let start := i + 1 - window
    let slice := (data.drop start).take (i + 1 - start)
    slice.sum / (slice.length : ℚ))

/-- DailyNewCasesChart (AdvancedCharts.jsx lines 174-179): for each index i
the mean of dailyCases.slice(max(0, i - 6), i + 1), dividing by the window
length.  Natural subtraction i - 6 truncates at 0 like Math.max(0, i - 6). -/
def movingAverage (dailyCases : List ℚ) : List ℚ :=
  dailyCases.mapIdx (fun i _ =>
    let start := i - 6
    let window := (dailyCases.drop start).take (i + 1 - start)
    window.sum / (window.length : ℚ))

/-- Statement of the claimed moving-average semantics, written from the claim
text rather than the source: the arithmetic mean of the trailing window
d[max(0, i-6) .. i], whose width is min (i+1) 7. -/
def trailingWindowMean (d : List ℚ) (i : ℕ) : ℚ :=
  (∑ j in Finset.Icc (i - 6) i, d.getD j 0) / ((min (i + 1) 7 : ℕ) : ℚ)

/-- exportCSV (AdvancedCharts.jsx line 1397): the CSV header fields. -/
def csvHeaders : List String := ["day", "S", "E", "I", "R", "D"]

/-- String rendering a row entry receives inside Array.prototype.join: a
present number prints as its decimal numeral, an undefined entry prints as
the empty string. -/
def csvCell : Option ℕ → String
  | some v => toString v
  | none => ""

/-- exportCSV (AdvancedCharts.jsx lines 1398-1405): one row per element of
history.time, holding day, S[idx], E?.[idx] || 0, I[idx], R[idx] and
D?.[idx] || 0.  Entries read without a fallback are Options so that an
out-of-range access joins as the empty string, as undefined does in
JavaScript. -/
def csvRows (r : History) : List (List (Option ℕ)) :=
  r.time.mapIdx (fun idx day =>
    [some day, r.S.get? idx, some (eAt r idx), r.I.get? idx, r.R.get? idx,
      some (dAt r idx)])

/-- exportCSV (AdvancedCharts.jsx lines 1407-1410): the emitted lines, the
comma-joined header followed by the comma-joined rows. -/
def exportCSVLines (r : History) : List String :=
  String.intercalate "," csvHeaders ::
    (csvRows r).map (fun row => String.intercalate "," (row.map csvCell))

/-- exportCSV (AdvancedCharts.jsx lines 1394-1419): the full CSV text, the
lines joined by newlines. -/
def exportCSV (r : History) : String :=
  String.intercalate "\n" (exportCSVLines r)

/-- AnimationTab component state relevant to frame control: the current frame
index and whether auto-play is running. -/
structure AnimState where
  currentFrame : ℤ
  isPlaying : Bool
deriving DecidableEq

/-- AnimationTab handleFirst (AnimationTab.jsx lines 44-47): jump to frame 0. -/
def handleFirst : ℤ := 0

/-- AnimationTab handlePrev (AnimationTab.jsx lines 49-52): Math.max(0, prev - 1). -/
def handlePrev (prev : ℤ) : ℤ := max 0 (prev - 1)

/-- AnimationTab handleNext (AnimationTab.jsx lines 54-57):
Math.min(maxFrames - 1, prev + 1). -/
def handleNext (maxFrames prev : ℤ) : ℤ := min (maxFrames - 1) (prev + 1)

/-- AnimationTab handleLast (AnimationTab.jsx lines 59-62): jump to
maxFrames - 1. -/
def handleLast (maxFrames : ℤ) : ℤ := maxFrames - 1

/-- AnimationTab handleSliderChange (AnimationTab.jsx lines 64-67): the
parsed slider value becomes the frame; the range input constrains it to
[0, maxFrames - 1]. -/
def handleSliderChange (value : ℤ) : ℤ := value

/-- AnimationTab auto-play tick (AnimationTab.jsx lines 16-38): at or past
the last frame the tick stops playback and resets the frame to 0; otherwise
it advances one frame and leaves the playing flag alone. -/
def autoPlayTick (maxFrames : ℤ) (s : AnimState) : AnimState :=
  if s.currentFrame ≥ maxFrames - 1 then ⟨0, false⟩
  else ⟨s.currentFrame + 1, s.isPlaying⟩

/-- Per-frame compartment counts of AnimationTab (AnimationTab.jsx lines
78-84), each read as history.X?.[currentFrame] || 0. -/
structure StateCounts where
  S : ℕ
  E : ℕ
  I : ℕ
  R : ℕ
  D : ℕ
deriving DecidableEq

/-- AnimationTab currentData (AnimationTab.jsx lines 78-84). -/
def currentData (h : History) (frame : ℕ) : StateCounts :=
  ⟨h.S.getD frame 0, eAt h frame, h.I.getD frame 0, h.R.getD frame 0,
    dAt h frame⟩

/-- Unique3DVisualization (AnimationTab.jsx lines 273-282): the total
population the 3-D sphere derives from the frame's compartment counts,
S + E + I + R + D. -/
def sphereTotal (h : History) (frame : ℕ) : ℕ :=
  (currentData h frame).S + (currentData h frame).E + (currentData h frame).I
    + (currentData h frame).R + (currentData h frame).D

/-- Modelled from the spec: the engine source is not in the tree, so the
DiseaseState enum of §3 of the design is reproduced here.  The spec makes
Vaccinated an orthogonal protection modifier on Susceptible and Recovered
rather than a sixth exclusive state, so it is not a constructor. -/
inductive DiseaseState where
  | susceptible
  | exposed
  | infectious
  | recovered
  | deceased
deriving DecidableEq

/-- Modelled from the spec: a DaySnapshot counts the nodes in a given
DiseaseState; every node has exactly one DiseaseState at any simulated day. -/
def countState (pop : List DiseaseState) (s : DiseaseState) : ℕ := pop.count s

/-- Modelled from the spec: one simulated day maps each node's state to its
next state (the snapshot-then-apply pattern of §9); the node set itself never
changes. -/
def applyDay (upd : ℕ → DiseaseState → DiseaseState)
    (pop : List DiseaseState) : List DiseaseState :=
  pop.mapIdx upd

/-- Modelled from the spec: a run's day-indexed population assignments, the
initial assignment followed by the result of each day's update. -/
def runPopulations (init : List DiseaseState)
    (upds : List (ℕ → DiseaseState → DiseaseState)) : List (List DiseaseState) :=
  upds.scanl (fun pop upd => applyDay upd pop) init

/-- Modelled from the spec: the history the engine returns to the client,
the per-day count per DiseaseState of the run's population assignments. -/
def historyOfRun (pops : List (List DiseaseState)) : History where
  S := pops.map (fun p => countState p DiseaseState.susceptible)
  E := some (pops.map (fun p => countState p DiseaseState.exposed))
  I := pops.map (fun p => countState p DiseaseState.infectious)
  R := pops.map (fun p => countState p DiseaseState.recovered)
  D := some (pops.map (fun p => countState p DiseaseState.deceased))
  time := List.range pops.length

/-- Modelled from the spec: an InfectionEdge (infector_id, infectee_id, day)
recorded in the append-only lineage. -/
structure InfectionEdge where
  infector : ℕ
  infectee : ℕ
  day : ℕ
deriving DecidableEq

/-- Modelled from the spec: the number of secondary infections a node caused
according to the InfectionEdge lineage. -/
def secondaryCount (edges : List InfectionEdge) (n : ℕ) : ℕ :=
  (edges.filter (fun e => e.infector == n)).length

/-- Modelled from the spec: the nodes that became Infectious within the
trailing 7-day window ending at day t; the first component of each pair is
the node id, the second the day it became Infectious. -/
def windowNodes (infectiousDays : List (ℕ × ℕ)) (t : ℕ) : List ℕ :=
  (infectiousDays.filter (fun p => decide (t - 6 ≤ p.2 ∧ p.2 ≤ t))).map Prod.fst

/-- Modelled from the spec: R-effective(t), the mean number of secondary
infections over the nodes that became Infectious within the trailing 7-day
window, with zero-secondary nodes contributing 0 to the numerator while
still counted in the denominator.  The client (REffectiveChart,
ComprehensiveCharts.jsx lines 852-877) plots this series as delivered. -/
def rEffective (infectiousDays : List (ℕ × ℕ)) (edges : List InfectionEdge)
    (t : ℕ) : ℚ :=
  let nodes := windowNodes infectiousDays t
  if nodes.length = 0 then 0
  else ((nodes.map (secondaryCount edges)).sum : ℚ) / (nodes.length : ℚ)

/-- Severity breakdown series consumed by the hospital charts: per-day counts
per Severity level. -/
structure SeverityData where
  asymptomatic : List ℕ
  mild : List ℕ
  severe : List ℕ
  hospitalized : List ℕ
  critical : List ℕ
deriving DecidableEq

/-- One data point of HospitalCapacityChart (ComprehensiveCharts.jsx lines
1073-1078). -/
structure HospitalRow where
  day : ℕ
  hospitalized : ℕ
  critical : ℕ
  capacity : ℕ
deriving DecidableEq

/-- HospitalCapacityChart data (ComprehensiveCharts.jsx lines 1073-1078):
maps the hospitalized series to rows carrying that day's Hospitalized and
Critical counts and the configured capacity. -/
def hospitalCapacityData (hospitalData : SeverityData) (capacity : ℕ) :
    List HospitalRow :=
  hospitalData.hospitalized.mapIdx (fun i hosp =>
    ⟨i, hosp, hospitalData.critical.getD i 0, capacity⟩)

/-- The per-day bed usage HospitalCapacityChart displays against the capacity
line: the chart stacks the Hospitalized and Critical areas (stackId 1,
ComprehensiveCharts.jsx lines 1090-1092), so the stack top is their sum. -/
def hospitalRowUsage (r : HospitalRow) : ℕ := r.hospitalized + r.critical

/-- The utilization of the configured capacity shown by HospitalCapacityChart:
stacked bed usage divided by the capacity drawn as the reference line. -/
def hospitalRowUtilization (r : HospitalRow) : ℚ :=
  (hospitalRowUsage r : ℚ) / (r.capacity : ℚ)

/-- One data point of HealthcareSystemChart (ComprehensiveCharts.jsx lines
189-196). -/
structure HealthcareRow where
  day : ℕ
  asymptomatic : ℕ
  mild : ℕ
  severe : ℕ
  hospitalized : ℕ
  icuCapacity : ℕ
deriving DecidableEq

/-- HealthcareSystemChart data (ComprehensiveCharts.jsx lines 189-196): maps
the hospitalized series to rows carrying that day's Asymptomatic, Mild,
Severe and Hospitalized counts and the configured capacity; the Critical
series is not part of this chart's data. -/
def healthcareSystemData (severityData : SeverityData) (capacity : ℕ) :
    List HealthcareRow :=
  severityData.hospitalized.mapIdx (fun i _ =>
    ⟨i, severityData.asymptomatic.getD i 0, severityData.mild.getD i 0,
      severityData.severe.getD i 0, severityData.hospitalized.getD i 0,
      capacity⟩)

/-- The stacked total HealthcareSystemChart displays against its ICU capacity
line: the chart stacks the Asymptomatic, Mild, Severe and Hospitalized areas
(stackId 1, ComprehensiveCharts.jsx lines 217-248), so the stack top is their
sum; Critical is absent. -/
def healthcareStackTop (r : HealthcareRow) : ℕ :=
  r.asymptomatic + r.mild + r.severe + r.hospitalized

/-- Concrete completed history refuting C1 as stated: two day-0 Exposed seed
nodes, burnt out by day 2, population 10 conserved every day. -/
def exHist1 : History :=
  ⟨[8, 5, 5], some [2, 0, 0], [0, 3, 0], [0, 2, 5], some [0, 0, 0], [0, 1, 2]⟩

/-- Concrete history for the C1 witness: no day-0 Exposed or Deceased,
burnt out at the final day, population 5 conserved. -/
def wHist1 : History := ⟨[4, 2], none, [1, 0], [0, 3], none, [0, 1]⟩

/-- Concrete history for the C3 witness: 3 recovered and 1 dead at the end. -/
def wHist3 : History := ⟨[5, 2], none, [0, 0], [0, 3], some [0, 1], [0, 1]⟩

/-- Concrete history for the C5 witness: a non-increasing Susceptible series. -/
def wHist5 : History := ⟨[2, 1], none, [0, 1], [0, 0], none, [0, 1]⟩

/-- Concrete results history for the C8 witness. -/
def wHist8 : History := ⟨[9, 8], none, [1, 2], [0, 0], some [0, 0], [0, 1]⟩

/-- Concrete day-0 population for C4: one Exposed seed and one Susceptible
node, as after spec §4.2 step 1 seeding with n_seed = 1. -/
def exInit4 : List DiseaseState :=
  [DiseaseState.exposed, DiseaseState.susceptible]

/-- Concrete infectious-onset days for the C6 witness: nodes 1 and 2 became
Infectious on days 3 and 4. -/
def wInfectiousDays6 : List (ℕ × ℕ) := [(1, 3), (2, 4)]

/-- Concrete lineage for the C6 witness: each of nodes 1 and 2 caused exactly
two secondary infections. -/
def wEdges6 : List InfectionEdge :=
  [⟨1, 10, 3⟩, ⟨1, 11, 4⟩, ⟨2, 12, 4⟩, ⟨2, 13, 5⟩]

/-- Concrete severity breakdown refuting C7 for HealthcareSystemChart: on the
only day there are 3 Asymptomatic, 1 Hospitalized and 4 Critical patients. -/
def exSeverity7 : SeverityData := ⟨[3], [0], [0], [1], [4]⟩

/-- Concrete daily-case list for the C9 witness. -/
def wData9 : List ℚ := [4, 2]

end EpiVirus

namespace EpiVirus

/- Helper lemmas about folded maxima and indexOf. -/

theorem le_foldl_max (l : List ℕ) : ∀ a : ℕ, a ≤ l.foldl max a := by
  induction l with
  | nil => intro a; exact Nat.le_refl a
  | cons b t ih =>
    intro a
    calc a ≤ max a b := Nat.le_max_left a b
    _ ≤ t.foldl max (max a b) := ih (max a b)

theorem mem_le_foldl_max (l : List ℕ) : ∀ a : ℕ, ∀ x ∈ l, x ≤ l.foldl max a := by
  induction l with
  | nil => intro a x hx; cases hx
  | cons b t ih =>
    intro a x hx
    rcases List.mem_cons.mp hx with hxb | hxt
    · subst hxb
      calc x ≤ max a x := Nat.le_max_right a x
      _ ≤ t.foldl max (max a x) := le_foldl_max t (max a x)
    · exact ih (max a b) x hxt

theorem foldl_max_mem (l : List ℕ) : ∀ a : ℕ, l.foldl max a = a ∨ l.foldl max a ∈ l := by
  induction l with
  | nil => intro a; exact Or.inl rfl
  | cons b t ih =>
    intro a
    rcases ih (max a b) with h | h
    · rcases Nat.le_total a b with hab | hba
      · right
        rw [List.foldl_cons, h, Nat.max_eq_right hab]
        exact List.mem_cons_self b t
      · left
        rw [List.foldl_cons, h, Nat.max_eq_left hba]
    · right
      exact List.mem_cons_of_mem b h

theorem peakInfections_mem (I : List ℕ) (h : I ≠ []) : peakInfections I ∈ I := by
  rcases foldl_max_mem I 0 with h0 | hm
  · cases I with
    | nil => exact absurd rfl h
    | cons b t =>
      have hb : b ≤ (b :: t).foldl max 0 :=
        mem_le_foldl_max (b :: t) 0 b (List.mem_cons_self b t)
      rw [h0] at hb
      have hb0 : b = 0 := Nat.le_antisymm hb (Nat.zero_le b)
      show (b :: t).foldl max 0 ∈ b :: t
      rw [h0, ← hb0]
      exact List.mem_cons_self b t
  · exact hm

theorem indexOf_getD_first (a : ℕ) (l : List ℕ) (h : a ∈ l) :
    l.indexOf a < l.length ∧ l.getD (l.indexOf a) 0 = a ∧
      ∀ j < l.indexOf a, l.getD j 0 ≠ a := by
  induction l with
  | nil => cases h
  | cons b t ih =>
    by_cases hb : b = a
    · subst hb
      refine ⟨?_, ?_, ?_⟩
      · rw [List.indexOf_cons_self]; exact Nat.succ_pos t.length
      · rw [List.indexOf_cons_self]; rfl
      · intro j hj; rw [List.indexOf_cons_self] at hj; cases hj
    · have hmem : a ∈ t := by
        rcases List.mem_cons.mp h with h1 | h2
        · exact absurd h1.symm hb
        · exact h2
      obtain ⟨ih1, ih2, ih3⟩ := ih hmem
      rw [List.indexOf_cons_ne t hb]
      refine ⟨?_, ?_, ?_⟩
      · exact Nat.succ_lt_succ ih1
      · simpa using ih2
      · intro j hj
        cases j with
        | zero => simpa using hb
        | succ k =>
          have hk : k < t.indexOf a := Nat.lt_of_succ_lt_succ hj
          simpa using ih3 k hk

theorem getD_map_of_lt {α β : Type} (f : α → β) (l : List α) (i : ℕ) (dβ : β)
    (dα : α) (hi : i < l.length) : (l.map f).getD i dβ = f (l.getD i dα) := by
  have hi2 : i < (l.map f).length := by simpa using hi
  rw [List.getD_eq_getElem _ dβ hi2, List.getD_eq_getElem _ dα hi, List.getElem_map]

theorem getD_mapIdx_of_lt {α β : Type} (f : ℕ → α → β) (l : List α) (i : ℕ)
    (dβ : β) (dα : α) (hi : i < l.length) :
    (l.mapIdx f).getD i dβ = f i (l.getD i dα) := by
  induction l generalizing f i with
  | nil => cases hi
  | cons a t ih =>
    rw [List.mapIdx_cons]
    cases i with
    | zero => rfl
    | succ k =>
      have hk : k < t.length := Nat.lt_of_succ_lt_succ hi
      simpa using ih (fun j => f (j + 1)) k hk

end EpiVirus

namespace EpiVirus

/-- C2: for every non-empty Infectious series, peakInfections is the maximum
of the series and peakDay is the first index at which it is attained. -/
theorem peak_is_max_argmax (I : List ℕ) (h : I ≠ []) :
    (∀ x ∈ I, x ≤ peakInfections I) ∧
    peakDay I < I.length ∧
    I.getD (peakDay I) 0 = peakInfections I ∧
    ∀ j < peakDay I, I.getD j 0 ≠ peakInfections I := by
  have hmem : peakInfections I ∈ I := peakInfections_mem I h
  obtain ⟨h1, h2, h3⟩ := indexOf_getD_first (peakInfections I) I hmem
  exact ⟨fun x hx => mem_le_foldl_max I 0 x hx, h1, h2, h3⟩

/-- C2 witness: the Infectious series [1, 3, 2, 3] has maximum 3 attained
first at index 1. -/
theorem peak_is_max_argmax_witness :
    ([1, 3, 2, 3] : List ℕ) ≠ [] ∧
    (∀ x ∈ ([1, 3, 2, 3] : List ℕ), x ≤ peakInfections [1, 3, 2, 3]) ∧
    peakDay [1, 3, 2, 3] < ([1, 3, 2, 3] : List ℕ).length ∧
    ([1, 3, 2, 3] : List ℕ).getD (peakDay [1, 3, 2, 3]) 0 = peakInfections [1, 3, 2, 3] ∧
    ∀ j < peakDay [1, 3, 2, 3], ([1, 3, 2, 3] : List ℕ).getD j 0 ≠ peakInfections [1, 3, 2, 3] :=
  ⟨by decide, peak_is_max_argmax [1, 3, 2, 3] (by decide)⟩

/-- C3: when cumulative Recovered plus cumulative Deceased at the final day
is positive the reported case-fatality rate equals
totalDeaths / (totalRecovered + totalDeaths), and whenever cumulative
Deceased is zero the reported rate is 0. -/
theorem caseFatalityRate_spec (h : History) :
    (0 < totalRecovered h + totalDeaths h →
      caseFatalityRate h =
        ((totalDeaths h : ℕ) : ℚ) / ((totalRecovered h + totalDeaths h : ℕ) : ℚ)) ∧
    (totalDeaths h = 0 → caseFatalityRate h = 0) := by
  constructor
  · intro hsum
    by_cases hd : 0 < totalDeaths h
    · unfold caseFatalityRate
      rw [if_pos ⟨hd, hsum⟩]
    · have hd0 : totalDeaths h = 0 := by omega
      unfold caseFatalityRate
      rw [if_neg (by simp [hd0]), hd0]
      simp
  · intro hd0
    unfold caseFatalityRate
    rw [if_neg (by simp [hd0])]

/-- C3 witness: with 3 recovered and 1 dead at the final day the reported
case-fatality rate is 1/4 of the closed cases. -/
theorem caseFatalityRate_spec_witness :
    0 < totalRecovered wHist3 + totalDeaths wHist3 ∧
    caseFatalityRate wHist3 =
      ((totalDeaths wHist3 : ℕ) : ℚ) /
        ((totalRecovered wHist3 + totalDeaths wHist3 : ℕ) : ℚ) :=
  ⟨by decide, (caseFatalityRate_spec wHist3).1 (by decide)⟩

/-- C1 counterexample: exHist1 is a completed history (it conserves
population 10 on every recorded day and has no Exposed or Infectious left on
the final day), yet the summary's reported attack rate 5/8 differs from
1 - final Susceptible / initial population, whether the initial population is
taken as the day-0 compartment sum 10 or as the summary's own
totalPopulation.  The summary's denominator omits the day-0 Exposed seeds. -/
theorem summary_attackRate_counterexample :
    exHist1.S.getD 0 0 + eAt exHist1 0 + exHist1.I.getD 0 0 + exHist1.R.getD 0 0
        + dAt exHist1 0 = 10 ∧
    exHist1.S.getD 1 0 + eAt exHist1 1 + exHist1.I.getD 1 0 + exHist1.R.getD 1 0
        + dAt exHist1 1 = 10 ∧
    exHist1.S.getD 2 0 + eAt exHist1 2 + exHist1.I.getD 2 0 + exHist1.R.getD 2 0
        + dAt exHist1 2 = 10 ∧
    eAt exHist1 (lastDay exHist1) = 0 ∧
    exHist1.I.getD (lastDay exHist1) 0 = 0 ∧
    attackRate exHist1 = 5 / 8 ∧
    attackRate exHist1 ≠ 1 - (exHist1.S.getD (lastDay exHist1) 0 : ℚ) / (10 : ℚ) ∧
    attackRate exHist1 ≠
      1 - (exHist1.S.getD (lastDay exHist1) 0 : ℚ) / (totalPopulation exHist1 : ℚ) := by
  refine ⟨by decide, by decide, by decide, by decide, by decide, ?_, ?_, ?_⟩ <;>
    norm_num [attackRate, totalRecovered, totalDeaths, totalPopulation, eAt, dAt,
      lastDay, exHist1]

/-- C1 (amended): for a history with at least one recorded day that conserves
a positive population N on its first and last days, has no day-0 Exposed or
Deceased, and has burnt out (no Exposed or Infectious on the final day), the
summary's reported attack rate equals 1 - final Susceptible / N. -/
theorem attackRate_eq_one_sub_final_susceptible (h : History) (N : ℕ)
    (_hL : 0 < h.S.length)
    (hcons0 : h.S.getD 0 0 + eAt h 0 + h.I.getD 0 0 + h.R.getD 0 0 + dAt h 0 = N)
    (hconsEnd : h.S.getD (lastDay h) 0 + eAt h (lastDay h) + h.I.getD (lastDay h) 0
        + h.R.getD (lastDay h) 0 + dAt h (lastDay h) = N)
    (hE0 : eAt h 0 = 0) (hD0 : dAt h 0 = 0)
    (hEend : eAt h (lastDay h) = 0) (hIend : h.I.getD (lastDay h) 0 = 0)
    (hN : 0 < N) :
    attackRate h = 1 - (h.S.getD (lastDay h) 0 : ℚ) / (N : ℚ) := by
  have hpop : totalPopulation h = N := by
    unfold totalPopulation
    omega
  have hsum : h.S.getD (lastDay h) 0 + (totalRecovered h + totalDeaths h) = N := by
    unfold totalRecovered totalDeaths
    omega
  have hq : (h.S.getD (lastDay h) 0 : ℚ) + ((totalRecovered h + totalDeaths h : ℕ) : ℚ)
      = (N : ℚ) := by
    exact_mod_cast hsum
  have hNQ : (N : ℚ) ≠ 0 := (Nat.cast_pos.mpr hN).ne'
  unfold attackRate
  rw [hpop, show ((totalRecovered h + totalDeaths h : ℕ) : ℚ)
      = (N : ℚ) - (h.S.getD (lastDay h) 0 : ℚ) from by linarith]
  field_simp

/-- C1 amended witness: on wHist1 (population 5, burnt out, no day-0 Exposed
or Deceased) the summary's attack rate is 1 - final Susceptible / 5. -/
theorem attackRate_eq_one_sub_final_susceptible_witness :
    0 < wHist1.S.length ∧
    attackRate wHist1 = 1 - (wHist1.S.getD (lastDay wHist1) 0 : ℚ) / (5 : ℚ) :=
  ⟨by decide, attackRate_eq_one_sub_final_susceptible wHist1 5 (by decide) (by decide)
    (by decide) (by decide) (by decide) (by decide) (by decide) (by decide)⟩

/-- C10: with maxFrames ≥ 1, every frame-control operation maps a frame index
in [0, maxFrames - 1] back into [0, maxFrames - 1], and the auto-play tick
taken at the last frame resets the frame to 0 and stops playback. -/
theorem frame_controls_stay_in_range (maxFrames f : ℤ)
    (hm : 1 ≤ maxFrames) (hf0 : 0 ≤ f) (hf1 : f ≤ maxFrames - 1) :
    (0 ≤ handleFirst ∧ handleFirst ≤ maxFrames - 1) ∧
    (0 ≤ handlePrev f ∧ handlePrev f ≤ maxFrames - 1) ∧
    (0 ≤ handleNext maxFrames f ∧ handleNext maxFrames f ≤ maxFrames - 1) ∧
    (0 ≤ handleLast maxFrames ∧ handleLast maxFrames ≤ maxFrames - 1) ∧
    (∀ v : ℤ, 0 ≤ v → v ≤ maxFrames - 1 →
      0 ≤ handleSliderChange v ∧ handleSliderChange v ≤ maxFrames - 1) ∧
    (0 ≤ (autoPlayTick maxFrames ⟨f, true⟩).currentFrame ∧
      (autoPlayTick maxFrames ⟨f, true⟩).currentFrame ≤ maxFrames - 1) ∧
    autoPlayTick maxFrames ⟨maxFrames - 1, true⟩ = ⟨0, false⟩ := by
  refine ⟨⟨?_, ?_⟩, ⟨?_, ?_⟩, ⟨?_, ?_⟩, ⟨?_, ?_⟩, ?_, ?_, ?_⟩
  · exact le_refl 0
  · unfold handleFirst; omega
  · exact le_max_left 0 (f - 1)
  · exact max_le (by omega) (by omega)
  · exact le_min (by omega) (by omega)
  · exact min_le_left (maxFrames - 1) (f + 1)
  · unfold handleLast; omega
  · unfold handleLast; omega
  · intro v hv0 hv1
    exact ⟨hv0, hv1⟩
  · unfold autoPlayTick
    dsimp only
    split_ifs with hc
    · dsimp only
      omega
    · dsimp only
      omega
  · unfold autoPlayTick
    dsimp only
    rw [if_pos (le_refl (maxFrames - 1))]

/-- C5: for a history whose Susceptible series is non-increasing and starts
positive, the per-day attack-rate series of AttackRateChart is non-decreasing
and the cumulative ever-infected series of CumulativeStatsChart never
decreases from one day to the next. -/
theorem attackRateSeries_monotone (h : History)
    (hmono : ∀ i, i + 1 < h.S.length → h.S.getD (i + 1) 0 ≤ h.S.getD i 0)
    (hpos : 0 < h.S.getD 0 0) :
    ∀ i, i + 1 < h.S.length →
      (attackRateSeries h).getD i 0 ≤ (attackRateSeries h).getD (i + 1) 0 ∧
      (totalInfectedSeries h).getD i 0 ≤ (totalInfectedSeries h).getD (i + 1) 0 := by
  intro i hi
  have hi0 : i < h.S.length := Nat.lt_of_succ_lt hi
  have hstep : h.S.getD (i + 1) 0 ≤ h.S.getD i 0 := hmono i hi
  have hQ : ((h.S.getD (i + 1) 0 : ℕ) : ℚ) ≤ ((h.S.getD i 0 : ℕ) : ℚ) := by
    exact_mod_cast hstep
  have hposQ : (0 : ℚ) < ((h.S.getD 0 0 : ℕ) : ℚ) := by exact_mod_cast hpos
  constructor
  · rw [attackRateSeries,
      getD_map_of_lt (fun (s : ℕ) => ((h.S.getD 0 0 : ℚ) - (s : ℚ)) / (h.S.getD 0 0 : ℚ) * 100)
        h.S i 0 0 hi0,
      getD_map_of_lt (fun (s : ℕ) => ((h.S.getD 0 0 : ℚ) - (s : ℚ)) / (h.S.getD 0 0 : ℚ) * 100)
        h.S (i + 1) 0 0 hi]
    apply mul_le_mul_of_nonneg_right _ (by norm_num : (0 : ℚ) ≤ 100)
    exact (div_le_div_iff_of_pos_right hposQ).mpr (by linarith)
  · rw [totalInfectedSeries,
      getD_map_of_lt (fun (s : ℕ) => (h.S.getD 0 0 : ℤ) - (s : ℤ)) h.S i 0 0 hi0,
      getD_map_of_lt (fun (s : ℕ) => (h.S.getD 0 0 : ℤ) - (s : ℤ)) h.S (i + 1) 0 0 hi]
    omega

/-- C5 witness: on wHist5's decreasing Susceptible series [2, 1] the day-0 to
day-1 step of both series is non-decreasing. -/
theorem attackRateSeries_monotone_witness :
    (∀ i, i + 1 < wHist5.S.length → wHist5.S.getD (i + 1) 0 ≤ wHist5.S.getD i 0) ∧
    0 < wHist5.S.getD 0 0 ∧
    ((attackRateSeries wHist5).getD 0 0 ≤ (attackRateSeries wHist5).getD 1 0 ∧
      (totalInfectedSeries wHist5).getD 0 0 ≤ (totalInfectedSeries wHist5).getD 1 0) := by
  have hlen : wHist5.S.length = 2 := rfl
  have hmono : ∀ i, i + 1 < wHist5.S.length → wHist5.S.getD (i + 1) 0 ≤ wHist5.S.getD i 0 := by
    intro i hi
    rw [hlen] at hi
    have h0 : i = 0 := by omega
    subst h0
    decide
  exact ⟨hmono, by decide,
    attackRateSeries_monotone wHist5 hmono (by decide) 0 (by rw [hlen]; omega)⟩

/-- C10 witness: with 3 frames, the Next control at frame 1 stays in range
and the auto-play tick at the last frame resets to frame 0 and stops. -/
theorem frame_controls_stay_in_range_witness :
    (1 : ℤ) ≤ 3 ∧
    (0 ≤ handleNext 3 1 ∧ handleNext 3 1 ≤ 3 - 1) ∧
    autoPlayTick 3 ⟨3 - 1, true⟩ = ⟨0, false⟩ :=
  ⟨by decide,
    (frame_controls_stay_in_range 3 1 (by decide) (by decide) (by decide)).2.2.1,
    (frame_controls_stay_in_range 3 1 (by decide) (by decide) (by decide)).2.2.2.2.2.2⟩

theorem take_sum_eq_range_sum (l : List ℚ) : ∀ k : ℕ, k ≤ l.length →
    (l.take k).sum = ∑ j in Finset.range k, l.getD j 0 := by
  intro k
  induction k with
  | zero => intro _; simp
  | succ n ih =>
    intro hk
    have hn : n ≤ l.length := Nat.le_of_succ_le hk
    have hlt : n < l.length := Nat.lt_of_succ_le hk
    rw [List.take_succ, List.sum_append, ih hn, Finset.sum_range_succ,
      List.getElem?_eq_getElem hlt, List.getD_eq_getElem l 0 hlt]
    simp

theorem drop_getD_of_lt (l : List ℚ) (s j : ℕ) (h : s + j < l.length) :
    (l.drop s).getD j 0 = l.getD (s + j) 0 := by
  have h1 : j < (l.drop s).length := by
    rw [List.length_drop]
    omega
  rw [List.getD_eq_getElem _ 0 h1, List.getD_eq_getElem _ 0 h, List.getElem_drop]

theorem slice_mean_eq_trailingWindowMean (d : List ℚ) (i : ℕ) (hi : i < d.length) :
    ((d.drop (i - 6)).take (i + 1 - (i - 6))).sum
        / ((((d.drop (i - 6)).take (i + 1 - (i - 6))).length : ℕ) : ℚ)
      = trailingWindowMean d i := by
  have hlen : ((d.drop (i - 6)).take (i + 1 - (i - 6))).length = i + 1 - (i - 6) := by
    rw [List.length_take, List.length_drop]
    omega
  have hsum : ((d.drop (i - 6)).take (i + 1 - (i - 6))).sum
      = ∑ j in Finset.range (i + 1 - (i - 6)), d.getD (i - 6 + j) 0 := by
    rw [take_sum_eq_range_sum]
    · refine Finset.sum_congr rfl ?_
      intro j hj
      have hj2 : i - 6 + j < d.length := by
        have := Finset.mem_range.mp hj
        omega
      exact drop_getD_of_lt d (i - 6) j hj2
    · rw [List.length_drop]
      omega
  rw [hsum, hlen, trailingWindowMean, ← Nat.Ico_succ_right (i - 6) i,
    Finset.sum_Ico_eq_sum_range (fun j => d.getD j 0) (i - 6) (i + 1)]
  congr 1
  have hmin : i + 1 - (i - 6) = min (i + 1) 7 := by omega
  rw [hmin]

/-- C9: at every index i, both chart implementations of the 7-day moving
average equal the arithmetic mean of the trailing window d[max(0, i-6) .. i];
for i ≥ 6 that is a mean of exactly 7 values and for i < 6 a mean of the
i + 1 values available so far, never a division by a fixed 7. -/
theorem movingAvg_is_trailing_mean (d : List ℚ) (i : ℕ) (hi : i < d.length) :
    (calculateMovingAvg d 7).getD i 0 = trailingWindowMean d i ∧
    (movingAverage d).getD i 0 = trailingWindowMean d i ∧
    (6 ≤ i → trailingWindowMean d i
      = (∑ j in Finset.Icc (i - 6) i, d.getD j 0) / (7 : ℚ)) ∧
    (i < 6 → trailingWindowMean d i
      = (∑ j in Finset.Icc 0 i, d.getD j 0) / ((i + 1 : ℕ) : ℚ)) := by
  refine ⟨?_, ?_, ?_, ?_⟩
  · rw [calculateMovingAvg, getD_mapIdx_of_lt _ d i 0 0 hi]
    dsimp only
    have hstart : i + 1 - 7 = i - 6 := by omega
    rw [hstart]
    exact slice_mean_eq_trailingWindowMean d i hi
  · rw [movingAverage, getD_mapIdx_of_lt _ d i 0 0 hi]
    dsimp only
    exact slice_mean_eq_trailingWindowMean d i hi
  · intro h6
    rw [trailingWindowMean, Nat.min_eq_right (by omega : 7 ≤ i + 1)]
    norm_num
  · intro h6
    rw [trailingWindowMean, Nat.min_eq_left (by omega : i + 1 ≤ 7),
      Nat.sub_eq_zero_of_le (by omega : i ≤ 6)]

theorem intercalate_six_strings (s a b c d e f : String) :
    String.intercalate s [a, b, c, d, e, f]
      = a ++ s ++ b ++ s ++ c ++ s ++ d ++ s ++ e ++ s ++ f := by
  simp [String.intercalate, String.intercalate.go, String.append_assoc]

/-- C8: exportCSV emits the comma-joined header day,S,E,I,R,D followed by
exactly one line per element of history.time, where line k comma-joins
time[k], S[k], E[k] with 0 when the E series is absent or has no entry at k,
I[k], R[k], and D[k] with 0 when the D series is absent or has no entry
at k. -/
theorem exportCSV_shape (r : History) :
    exportCSV r = String.intercalate "\n" (exportCSVLines r) ∧
    (exportCSVLines r).getD 0 "" = "day,S,E,I,R,D" ∧
    (exportCSVLines r).length = r.time.length + 1 ∧
    ∀ k, k < r.time.length → k < r.S.length → k < r.I.length → k < r.R.length →
      (exportCSVLines r).getD (k + 1) "" =
        toString (r.time.getD k 0) ++ "," ++ toString (r.S.getD k 0) ++ ","
          ++ toString (eAt r k) ++ "," ++ toString (r.I.getD k 0) ++ ","
          ++ toString (r.R.getD k 0) ++ "," ++ toString (dAt r k) := by
  refine ⟨rfl, rfl, ?_, ?_⟩
  · simp [exportCSVLines, csvRows]
  · intro k hk hkS hkI hkR
    have hrows : (csvRows r).getD k [] =
        [some (r.time.getD k 0), r.S.get? k, some (eAt r k), r.I.get? k,
          r.R.get? k, some (dAt r k)] := by
      rw [csvRows, getD_mapIdx_of_lt _ r.time k [] 0 hk]
    have hS : r.S.get? k = some (r.S.getD k 0) := by
      rw [List.get?_eq_getElem?, List.getElem?_eq_getElem hkS,
        List.getD_eq_getElem r.S 0 hkS]
    have hI : r.I.get? k = some (r.I.getD k 0) := by
      rw [List.get?_eq_getElem?, List.getElem?_eq_getElem hkI,
        List.getD_eq_getElem r.I 0 hkI]
    have hR : r.R.get? k = some (r.R.getD k 0) := by
      rw [List.get?_eq_getElem?, List.getElem?_eq_getElem hkR,
        List.getD_eq_getElem r.R 0 hkR]
    have hk2 : k < (csvRows r).length := by
      rw [csvRows, List.length_mapIdx]
      exact hk
    calc (exportCSVLines r).getD (k + 1) ""
        = ((csvRows r).map
            (fun row => String.intercalate "," (row.map csvCell))).getD k "" := rfl
      _ = String.intercalate "," (((csvRows r).getD k []).map csvCell) := by
          rw [getD_map_of_lt (fun row => String.intercalate "," (row.map csvCell))
            (csvRows r) k "" [] hk2]
      _ = toString (r.time.getD k 0) ++ "," ++ toString (r.S.getD k 0) ++ ","
            ++ toString (eAt r k) ++ "," ++ toString (r.I.getD k 0) ++ ","
            ++ toString (r.R.getD k 0) ++ "," ++ toString (dAt r k) := by
          rw [hrows, hS, hI, hR]
          simp only [List.map_cons, List.map_nil, csvCell]
          exact intercalate_six_strings "," (toString (r.time.getD k 0))
            (toString (r.S.getD k 0)) (toString (eAt r k))
            (toString (r.I.getD k 0)) (toString (r.R.getD k 0))
            (toString (dAt r k))

/-- C8 witness: on wHist8 the second emitted line is the day-0 data row. -/
theorem exportCSV_shape_witness :
    0 < wHist8.time.length ∧
    (exportCSVLines wHist8).getD 1 "" =
      toString (wHist8.time.getD 0 0) ++ "," ++ toString (wHist8.S.getD 0 0) ++ ","
        ++ toString (eAt wHist8 0) ++ "," ++ toString (wHist8.I.getD 0 0) ++ ","
        ++ toString (wHist8.R.getD 0 0) ++ "," ++ toString (dAt wHist8 0) :=
  ⟨by decide,
    (exportCSV_shape wHist8).2.2.2 0 (by decide) (by decide) (by decide) (by decide)⟩

/-- C9 witness: on the series [4, 2] the moving average at index 1 is the
mean of the two available values. -/
theorem movingAvg_is_trailing_mean_witness :
    1 < wData9.length ∧
    ((calculateMovingAvg wData9 7).getD 1 0 = trailingWindowMean wData9 1 ∧
      (movingAverage wData9).getD 1 0 = trailingWindowMean wData9 1 ∧
      (6 ≤ 1 → trailingWindowMean wData9 1
        = (∑ j in Finset.Icc (1 - 6) 1, wData9.getD j 0) / (7 : ℚ)) ∧
      (1 < 6 → trailingWindowMean wData9 1
        = (∑ j in Finset.Icc 0 1, wData9.getD j 0) / ((1 + 1 : ℕ) : ℚ))) :=
  ⟨by decide, movingAvg_is_trailing_mean wData9 1 (by decide)⟩

theorem countState_total (pop : List DiseaseState) :
    countState pop DiseaseState.susceptible + countState pop DiseaseState.exposed
      + countState pop DiseaseState.infectious + countState pop DiseaseState.recovered
      + countState pop DiseaseState.deceased = pop.length := by
  induction pop with
  | nil => rfl
  | cons a t ih =>
    simp only [countState] at ih ⊢
    cases a <;> simp [List.count_cons] <;> omega

theorem runPopulations_sizes (init : List DiseaseState)
    (upds : List (ℕ → DiseaseState → DiseaseState)) :
    ∀ pop ∈ runPopulations init upds, pop.length = init.length := by
  induction upds generalizing init with
  | nil =>
    intro pop hp
    rw [runPopulations, List.scanl_nil, List.mem_singleton] at hp
    rw [hp]
  | cons u us ih =>
    intro pop hp
    rw [runPopulations, List.scanl_cons] at hp
    rcases List.mem_append.mp hp with h1 | h2
    · rw [List.mem_singleton] at h1
      rw [h1]
    · have hlen := ih (applyDay u init) pop h2
      rw [hlen, applyDay, List.length_mapIdx]

theorem runPopulations_head (init : List DiseaseState)
    (upds : List (ℕ → DiseaseState → DiseaseState)) :
    ∃ rest, runPopulations init upds = init :: rest := by
  cases upds with
  | nil => exact ⟨[], by rw [runPopulations, List.scanl_nil]⟩
  | cons u us =>
    exact ⟨(us.scanl (fun pop upd => applyDay upd pop) (applyDay u init)),
      by rw [runPopulations, List.scanl_cons]; rfl⟩

/-- C4: every day of a run of the spec-modelled engine conserves the
population size (the per-day DiseaseState counts sum to the size of the node
set), and the total population the Unique3DVisualization consumer derives
from the day-0 compartment counts of the returned history equals that
population size. -/
theorem run_conserves_population (init : List DiseaseState)
    (upds : List (ℕ → DiseaseState → DiseaseState)) :
    (∀ pop ∈ runPopulations init upds,
      countState pop DiseaseState.susceptible + countState pop DiseaseState.exposed
        + countState pop DiseaseState.infectious + countState pop DiseaseState.recovered
        + countState pop DiseaseState.deceased = init.length) ∧
    sphereTotal (historyOfRun (runPopulations init upds)) 0 = init.length := by
  constructor
  · intro pop hp
    rw [← runPopulations_sizes init upds pop hp]
    exact countState_total pop
  · obtain ⟨rest, hr⟩ := runPopulations_head init upds
    rw [hr]
    simp only [sphereTotal, currentData, historyOfRun, eAt, dAt, List.map_cons,
      List.getD_cons_zero]
    exact countState_total init

/-- C4 witness: a two-node run with no update days conserves its population
of 2 on its only day, and the 3-D sphere total at frame 0 is 2. -/
theorem run_conserves_population_witness :
    exInit4 ∈ runPopulations exInit4 [] ∧
    (countState exInit4 DiseaseState.susceptible + countState exInit4 DiseaseState.exposed
      + countState exInit4 DiseaseState.infectious + countState exInit4 DiseaseState.recovered
      + countState exInit4 DiseaseState.deceased = exInit4.length) ∧
    sphereTotal (historyOfRun (runPopulations exInit4 [])) 0 = exInit4.length :=
  ⟨by decide,
    (run_conserves_population exInit4 []).1 exInit4 (by decide),
    (run_conserves_population exInit4 []).2⟩

/-- C4 counterexample: on the conserving two-node run whose day 0 has one
Exposed seed, the population total SimulationSummary derives from the day-0
compartment counts (S[0] + I[0] + R[0]) is 1, not the population size 2,
because it omits day-0 Exposed and Deceased; the sphere total over all five
compartments does give 2. -/
theorem summary_population_counterexample :
    sphereTotal (historyOfRun (runPopulations exInit4 [])) 0 = 2 ∧
    exInit4.length = 2 ∧
    totalPopulation (historyOfRun (runPopulations exInit4 [])) = 1 := by
  refine ⟨by decide, by decide, by decide⟩

/-- C6: for a non-empty trailing window, the spec-modelled R-effective times
the number of window nodes equals the total number of secondary infections of
the window nodes (so zero-secondary nodes count in the denominator), and when
every node that became Infectious in the window caused exactly two secondary
infections the value is 2. -/
theorem rEffective_mean (infectiousDays : List (ℕ × ℕ)) (edges : List InfectionEdge)
    (t : ℕ) (hne : windowNodes infectiousDays t ≠ []) :
    rEffective infectiousDays edges t * ((windowNodes infectiousDays t).length : ℚ)
        = (((windowNodes infectiousDays t).map (secondaryCount edges)).sum : ℚ) ∧
    ((∀ n ∈ windowNodes infectiousDays t, secondaryCount edges n = 2) →
      rEffective infectiousDays edges t = 2) := by
  have hlen : (windowNodes infectiousDays t).length ≠ 0 := by
    simpa [List.length_eq_zero] using hne
  have hlenQ : (((windowNodes infectiousDays t).length : ℕ) : ℚ) ≠ 0 := by
    exact_mod_cast hlen
  constructor
  · simp only [rEffective]
    rw [if_neg hlen]
    field_simp
  · intro hall
    simp only [rEffective]
    rw [if_neg hlen]
    have hrep : (windowNodes infectiousDays t).map (secondaryCount edges)
        = List.replicate (windowNodes infectiousDays t).length 2 := by
      apply List.eq_replicate_iff.mpr
      refine ⟨by rw [List.length_map], ?_⟩
      intro x hx
      obtain ⟨n, hn, hxe⟩ := List.mem_map.mp hx
      rw [← hxe]
      exact hall n hn
    rw [hrep, List.sum_replicate, smul_eq_mul]
    push_cast
    field_simp

/-- C6 witness: nodes 1 and 2 became Infectious on days 3 and 4, inside the
trailing window of day 5, and each caused exactly two secondary infections,
so R-effective at day 5 is 2. -/
theorem rEffective_mean_witness :
    windowNodes wInfectiousDays6 5 ≠ [] ∧
    rEffective wInfectiousDays6 wEdges6 5 = 2 :=
  ⟨by decide, (rEffective_mean wInfectiousDays6 wEdges6 5 (by decide)).2 (by decide)⟩

/-- C7 (amended): HospitalCapacityChart reports the per-day bed usage it
stacks against the configured capacity as Hospitalized + Critical, so its
utilization of the capacity is their sum divided by the capacity; but the
HealthcareSystemChart stack compared against the same capacity line totals
Asymptomatic + Mild + Severe + Hospitalized, so there the milder severity
categories contribute and Critical does not. -/
theorem hospital_utilization_spec (sd : SeverityData) (cap : ℕ) (i : ℕ)
    (hi : i < sd.hospitalized.length) :
    hospitalRowUtilization ((hospitalCapacityData sd cap).getD i ⟨0, 0, 0, 0⟩)
        = ((sd.hospitalized.getD i 0 + sd.critical.getD i 0 : ℕ) : ℚ) / (cap : ℚ) ∧
    healthcareStackTop ((healthcareSystemData sd cap).getD i ⟨0, 0, 0, 0, 0, 0⟩)
        = sd.asymptomatic.getD i 0 + sd.mild.getD i 0 + sd.severe.getD i 0
          + sd.hospitalized.getD i 0 := by
  constructor
  · rw [hospitalCapacityData,
      getD_mapIdx_of_lt
        (fun i hosp => (⟨i, hosp, sd.critical.getD i 0, cap⟩ : HospitalRow))
        sd.hospitalized i ⟨0, 0, 0, 0⟩ 0 hi]
    rfl
  · rw [healthcareSystemData,
      getD_mapIdx_of_lt
        (fun i _ => (⟨i, sd.asymptomatic.getD i 0, sd.mild.getD i 0,
          sd.severe.getD i 0, sd.hospitalized.getD i 0, cap⟩ : HealthcareRow))
        sd.hospitalized i ⟨0, 0, 0, 0, 0, 0⟩ 0 hi]
    rfl

/-- C7 witness: on exSeverity7 with capacity 10, the HospitalCapacityChart
utilization on day 0 is (1 + 4) / 10 and the HealthcareSystemChart stack top
is 3 + 0 + 0 + 1. -/
theorem hospital_utilization_spec_witness :
    0 < exSeverity7.hospitalized.length ∧
    hospitalRowUtilization ((hospitalCapacityData exSeverity7 10).getD 0 ⟨0, 0, 0, 0⟩)
        = ((exSeverity7.hospitalized.getD 0 0 + exSeverity7.critical.getD 0 0 : ℕ) : ℚ)
          / (10 : ℚ) ∧
    healthcareStackTop ((healthcareSystemData exSeverity7 10).getD 0 ⟨0, 0, 0, 0, 0, 0⟩)
        = exSeverity7.asymptomatic.getD 0 0 + exSeverity7.mild.getD 0 0
          + exSeverity7.severe.getD 0 0 + exSeverity7.hospitalized.getD 0 0 :=
  ⟨by decide,
    (hospital_utilization_spec exSeverity7 10 0 (by decide)).1,
    (hospital_utilization_spec exSeverity7 10 0 (by decide)).2⟩

/-- C7 counterexample: on exSeverity7 with capacity 10, the stacked total
HealthcareSystemChart displays against its capacity line is 4, which is not
the Hospitalized + Critical count 5, so the ratio it reports against the
capacity differs from (Hospitalized + Critical) / capacity: milder severity
categories contribute and Critical is dropped. -/
theorem healthcare_capacity_counterexample :
    healthcareStackTop ((healthcareSystemData exSeverity7 10).getD 0 ⟨0, 0, 0, 0, 0, 0⟩)
        ≠ exSeverity7.hospitalized.getD 0 0 + exSeverity7.critical.getD 0 0 ∧
    ((healthcareStackTop ((healthcareSystemData exSeverity7 10).getD 0
          ⟨0, 0, 0, 0, 0, 0⟩) : ℕ) : ℚ) / (10 : ℚ)
      ≠ hospitalRowUtilization ((hospitalCapacityData exSeverity7 10).getD 0 ⟨0, 0, 0, 0⟩) := by
  have h1 : (healthcareSystemData exSeverity7 10).getD 0 ⟨0, 0, 0, 0, 0, 0⟩
      = ⟨0, 3, 0, 0, 1, 10⟩ := by decide
  have h2 : (hospitalCapacityData exSeverity7 10).getD 0 ⟨0, 0, 0, 0⟩
      = ⟨0, 1, 4, 10⟩ := by decide
  rw [h1, h2]
  constructor
  · decide
  · norm_num [healthcareStackTop, hospitalRowUtilization, hospitalRowUsage]

end EpiVirus
